import Mathlib

/-!
Verification development for the console-server repository.

The development shallowly embeds the three core subsystems:
  * the boot-state classifier (`sol/reboot.go`),
  * the per-host rotating log store (`logs` writer),
  * the session supervisor (`sol/manager.go`).

Time is modelled as a natural number of seconds for the classifier
(Go's `2 * time.Minute` cooldown becomes `120`), as an integer number of
days for file modification times (Go's `AddDate(0, 0, -retentionDays)`
cutoff becomes `now - retentionDays`), and as an explicit calendar
`DateTime` where the code formats `time.Now()` into a file name.
Go's zero `time.Time` (for which `time.Since` is astronomically large,
hence never inside a cooldown window) is modelled as `Option.none`.
Regular-expression matchers compiled in `NewRebootDetector` are embedded
as abstract boolean predicates on strings; the fixed list of plain
substring heuristics hard-coded in `matchesOS` is embedded literally.
-/

namespace ConsoleServer

/-- Membership of the character list `p` as a contiguous sublist of `s`,
mirroring Go's `strings.Contains`. -/
def listContainsSub (p : List Char) : List Char → Bool
  | [] => p.isEmpty
  | c :: rest => p.isPrefixOf (c :: rest) || listContainsSub p rest

/-- Go `strings.Contains(s, p)`. -/
def strContains (s p : String) : Bool :=
  listContainsSub p.toList s.toList

/-- ASCII lower-casing of one character (console output is ASCII). -/
def charToLower (c : Char) : Char :=
  if 65 ≤ c.toNat ∧ c.toNat ≤ 90 then Char.ofNat (c.toNat + 32) else c

/-- Go `strings.ToLower` on ASCII text. -/
def strToLower (s : String) : String :=
  String.mk (s.toList.map charToLower)

/-- Per-host classifier state, from `serverState` in `sol/reboot.go`:
`inOS` records that OS output has been seen, `lastReboot` the time of the
most recently detected reboot (`none` models Go's zero time). -/
structure ServerState where
  inOS : Bool
  lastReboot : Option Nat
deriving DecidableEq, Repr

/-- Freshly created per-host state (`&serverState{inOS: false}`). -/
def freshState : ServerState := { inOS := false, lastReboot := none }

/-- The reboot detector of `sol/reboot.go`.  The compiled regular
expressions of `biosPatterns` and `osPatterns` are embedded as abstract
boolean matchers; `cooldown` is in seconds. -/
structure RebootDetector where
  biosPatterns : List (String → Bool)
  osPatterns : List (String → Bool)
  cooldown : Nat

/-- Constructor `NewRebootDetector`: the cooldown is fixed at 2 minutes
(120 seconds); user-supplied patterns are appended to the built-in
BIOS set, which the abstract `bios` list already represents. -/
def newRebootDetector (bios os : List (String → Bool)) : RebootDetector :=
  { biosPatterns := bios, osPatterns := os, cooldown := 120 }

/-- The plain substring heuristics hard-coded in `matchesOS`. -/
def simpleOSSubstrings : List String :=
  ["welcome to", "kernel:", "last login:", "no mail", "/home/", "/root/",
   "apt ", "yum ", "apk ", "docker", "kubelet"]

/-- Method `matchesOS`: the text matches an OS indicator if its
lower-casing contains one of the fixed substrings, or any compiled OS
pattern matches. -/
def RebootDetector.matchesOS (rd : RebootDetector) (text : String) : Bool :=
  simpleOSSubstrings.any (fun p => strContains (strToLower text) p)
  || rd.osPatterns.any (fun p => p text)

/-- Method `matchesBIOS`: some compiled BIOS pattern matches. -/
def RebootDetector.matchesBIOS (rd : RebootDetector) (text : String) : Bool :=
  rd.biosPatterns.any (fun p => p text)

/-- The per-host state map `states` of the detector. -/
abbrev StateMap : Type := String → Option ServerState

/-- Store `st` under key `h` (Go `rd.states[serverName] = state` plus the
in-place mutation of an existing record). -/
def setState (states : StateMap) (h : String) (st : ServerState) : StateMap :=
  fun x => if x = h then some st else states x

/-- Record looked up (or lazily created) for host `h`. -/
def recordOf (states : StateMap) (h : String) : ServerState :=
  (states h).getD freshState

/-- Go `time.Since(state.lastReboot) < rd.cooldown`, with `none` standing
for the zero time (never within the cooldown). -/
def inCooldown (cooldown : Nat) (lastReboot : Option Nat) (now : Nat) : Bool :=
  match lastReboot with
  | none => false
  | some t => now - t < cooldown

/-- Method `Check` of `sol/reboot.go`, lines 85-125: returns the reboot
signal and the updated state map.  The current time is passed explicitly. -/
def RebootDetector.check (rd : RebootDetector) (states : StateMap)
    (serverName text : String) (now : Nat) : Bool × StateMap :=
  let state := recordOf states serverName
  if inCooldown rd.cooldown state.lastReboot now then
    let st := if rd.matchesOS text then { state with inOS := true } else state
    (false, setState states serverName st)
  else if rd.matchesOS text then
    (false, setState states serverName { state with inOS := true })
  else if rd.matchesBIOS text then
    if state.inOS then
      (true, setState states serverName { inOS := false, lastReboot := some now })
    else
      (false, setState states serverName state)
  else
    (false, setState states serverName state)

/-- Method `MarkOSRunning`: force `inOS := true` for the host, creating
the record if absent; `lastReboot` is left as it was. -/
def markOSRunning (states : StateMap) (serverName : String) : StateMap :=
  let state := recordOf states serverName
  setState states serverName { state with inOS := true }

/-- Feeding a sequence of timed text chunks through `Check` for one host;
returns the list of results and the final state map. -/
def checkSeq (rd : RebootDetector) (states : StateMap) (h : String) :
    List (String × Nat) → List Bool × StateMap
  | [] => ([], states)
  | (t, now) :: rest =>
    let r := rd.check states h t now
    let rs := checkSeq rd r.2 h rest
    (r.1 :: rs.1, rs.2)

/-!  Log store (the `logs` writer).  The on-disk state of one host's log
directory is a list of regular files with modification times, plus the
optional `current.log` symlink (target name and the symlink's own
modification time).  The whole store is an association list from host
name to directory, matching `os.ReadDir(basePath)`.  File contents are
not modelled; `Write`'s observable effects are which file is open, which
files exist, where `current.log` points, and modification times. -/

/-- One host's log directory. -/
structure HostDir where
  files : List (String × Int)
  currentLink : Option (String × Int)
deriving DecidableEq, Repr

/-- The base directory: one entry per host subdirectory. -/
abbrev Fs : Type := List (String × HostDir)

/-- Directory of host `h`, if the subdirectory exists. -/
def lookupDir (fs : Fs) (h : String) : Option HostDir :=
  (List.find? (fun p => p.1 == h) fs).map Prod.snd

/-- Replace host `h`'s directory (assumes the entry exists). -/
def setDir (fs : Fs) (h : String) (d : HostDir) : Fs :=
  List.map (fun p => if p.1 = h then (p.1, d) else p) fs

/-- Go `os.MkdirAll`: create the host subdirectory if absent. -/
def ensureDir (fs : Fs) (h : String) : Fs :=
  match lookupDir fs h with
  | some _ => fs
  | none => fs ++ [(h, { files := [], currentLink := none })]

/-- Names of the regular files in a directory. -/
def fileNames (d : HostDir) : List String := d.files.map Prod.fst

/-- The `logs.Writer`: base path, retention in days, and the map from
host name to the name of the file its open handle refers to. -/
structure Writer where
  basePath : String
  retentionDays : Int
  files : String → Option String

/-- Constructor `NewWriter`. -/
def newWriter (basePath : String) (retentionDays : Int) : Writer :=
  { basePath := basePath, retentionDays := retentionDays, files := fun _ => none }

/-- Record an open handle for host `h` on file `f`. -/
def setHandle (w : Writer) (h : String) (f : String) : Writer :=
  { w with files := fun x => if x = h then some f else w.files x }

/-- Calendar timestamp, the data `time.Now().Format("2006-01-02_15-04-05")`
renders. -/
structure DateTime where
  year : Nat
  month : Nat
  day : Nat
  hour : Nat
  minute : Nat
  second : Nat
deriving DecidableEq, Repr

/-- Zero-pad to two digits (Go format verbs `01`, `02`, `15`, `04`, `05`). -/
def pad2 (n : Nat) : String :=
  if n < 10 then "0" ++ toString n else toString n

/-- Zero-pad to four digits (Go format verb `2006`). -/
def pad4 (n : Nat) : String :=
  if n < 10 then "000" ++ toString n
  else if n < 100 then "00" ++ toString n
  else if n < 1000 then "0" ++ toString n
  else toString n

/-- Go `time.Now().Format("2006-01-02_15-04-05")`. -/
def formatTimestamp (t : DateTime) : String :=
  pad4 t.year ++ "-" ++ pad2 t.month ++ "-" ++ pad2 t.day ++ "_" ++
  pad2 t.hour ++ "-" ++ pad2 t.minute ++ "-" ++ pad2 t.second

/-- The new-file branch of `getOrCreateFile` (lines 78-95): open with
`O_CREATE|O_WRONLY|O_APPEND` a file named after the current time (creating
it only if no file of that name exists), record the handle, and replace
the `current.log` symlink (`os.Remove` then `os.Symlink`). -/
def createNewFile (w : Writer) (fs : Fs) (serverName : String) (d : HostDir)
    (now : DateTime) (nowT : Int) : String × Writer × Fs :=
  let filename := formatTimestamp now ++ ".log"
  let files := if filename ∈ fileNames d then d.files else (filename, nowT) :: d.files
  let d2 : HostDir := { files := files, currentLink := some (filename, nowT) }
  (filename, setHandle w serverName filename, setDir fs serverName d2)

/-- Method `getOrCreateFile` of the `logs` writer, lines 57-96: reuse the
open handle if any; otherwise ensure the directory exists, try to resume
the file the `current.log` symlink targets (reopening succeeds exactly
when that file exists), and only failing that create a new timestamped
file and repoint the symlink.  Returns the name of the opened file. -/
def getOrCreateFile (w : Writer) (fs : Fs) (serverName : String)
    (now : DateTime) (nowT : Int) : String × Writer × Fs :=
  match w.files serverName with
  | some f => (f, w, fs)
  | none =>
    let fs1 := ensureDir fs serverName
    let d := (lookupDir fs1 serverName).getD { files := [], currentLink := none }
    match d.currentLink with
    | some (target, _) =>
      if target ∈ fileNames d then
        (target, setHandle w serverName target, fs1)
      else
        createNewFile w fs1 serverName d now nowT
    | none => createNewFile w fs1 serverName d now nowT

/-- Modification-time update performed by `f.Write(data)` on file `f` of
host `h`. -/
def touchFile (fs : Fs) (h : String) (f : String) (nowT : Int) : Fs :=
  List.map
    (fun p =>
      if p.1 = h then
        (p.1, { p.2 with
                 files := p.2.files.map (fun e => if e.1 = f then (e.1, nowT) else e) })
      else p)
    fs

/-- Method `Write`: open or create the host's file, then append (contents
elided; the append refreshes the file's modification time). -/
def Writer.write (w : Writer) (fs : Fs) (serverName : String) (_data : String)
    (now : DateTime) (nowT : Int) : Writer × Fs :=
  let r := getOrCreateFile w fs serverName now nowT
  (r.2.1, touchFile r.2.2 serverName r.1 nowT)

/-- Method `Rotate`, lines 42-55: close and forget the open handle, if
any.  Nothing on disk is touched. -/
def Writer.rotate (w : Writer) (serverName : String) : Writer :=
  { w with files := fun x => if x = serverName then none else w.files x }

/-- Go `filepath.Ext`: the suffix starting at the final dot, or `""`. -/
def fileExt (s : String) : String :=
  let rev := s.toList.reverse
  if rev.contains '.' then
    String.mk ('.' :: (rev.takeWhile (fun c => c ≠ '.')).reverse)
  else ""

/-- One host directory under `Cleanup`: every non-directory entry whose
name ends in `.log` and whose modification time is strictly before the
cutoff is removed.  The `current.log` symlink is itself such an entry and
is removed when its own modification time is stale. -/
def cleanupHostDir (cutoff : Int) (d : HostDir) : HostDir :=
  { files := d.files.filter (fun e => !(fileExt e.1 == ".log" && decide (e.2 < cutoff))),
    currentLink :=
      match d.currentLink with
      | some (t, m) => if m < cutoff then none else some (t, m)
      | none => none }

/-- Method `Cleanup`, lines 147-187: no-op when retention is disabled
(`retentionDays <= 0`); otherwise delete, in every host subdirectory,
the `.log`-named entries last modified before `now` minus the retention
window (`time.Now().AddDate(0, 0, -retentionDays)`; time in days). -/
def Writer.cleanup (w : Writer) (now : Int) (fs : Fs) : Fs :=
  if w.retentionDays ≤ 0 then fs
  else
    let cutoff := now - w.retentionDays
    List.map (fun p => (p.1, cleanupHostDir cutoff p.2)) fs

/-!  Session supervisor (`sol/manager.go`).  Sessions are identified by
numeric ids drawn from a counter; `cancelled i = true` records that
session `i`'s `context.CancelFunc` has been invoked.  Subscriber channels
are likewise identified by ids, each carrying its buffer capacity. -/

/-- Registry state of the `Manager`: which session id (if any) each host
maps to, which session ids have been cancelled, and the next fresh id.
Every session built by `StartSession` holds a non-nil cancel function
(from `context.WithCancel`), so cancellation of an existing session is
unconditional. -/
structure ManagerState where
  sessions : String → Option Nat
  cancelled : Nat → Bool
  nextId : Nat

/-- First half of `StartSession` (lines 59-63): if the host already has a
session, invoke its cancel function. -/
def cancelOldSession (s : ManagerState) (serverName : String) : ManagerState :=
  match s.sessions serverName with
  | some oldId =>
    { s with cancelled := fun i => if i = oldId then true else s.cancelled i }
  | none => s

/-- Second half of `StartSession` (lines 65-73): build the new session and
install it in the registry. -/
def installNewSession (s : ManagerState) (serverName : String) : ManagerState :=
  { s with
     sessions := fun h => if h = serverName then some s.nextId else s.sessions h,
     nextId := s.nextId + 1 }

/-- Method `StartSession`: cancel the old session first, then install the
new one. -/
def startSession (s : ManagerState) (serverName : String) : ManagerState :=
  installNewSession (cancelOldSession s serverName) serverName

/-- Registry invariant: every installed session id was drawn from the
counter, hence is below `nextId`. -/
def idsFresh (s : ManagerState) : Prop :=
  ∀ h i, s.sessions h = some i → i < s.nextId

/-- A subscriber sink: `make(chan []byte, 100)`, identified by id, with
its buffer capacity. -/
structure Sink where
  id : Nat
  capacity : Nat
deriving DecidableEq, Repr

/-- The subscriber set of one session (`subscribers map[chan []byte]struct{}`,
as a duplicate-free list). -/
structure SubSession where
  subscribers : List Sink
deriving DecidableEq, Repr

/-- The manager as seen by `Subscribe`: per-host subscriber sets plus the
fresh-sink counter. -/
structure SubState where
  sessions : String → Option SubSession
  nextSinkId : Nat

/-- Method `Subscribe`, lines 115-137: `(nil, nil)` — here `none` — when
the host has no session; otherwise a fresh channel of capacity 100 is
added to the session's subscriber set and returned. -/
def subscribe (s : SubState) (serverName : String) : Option Sink × SubState :=
  match s.sessions serverName with
  | none => (none, s)
  | some sess =>
    let ch : Sink := { id := s.nextSinkId, capacity := 100 }
    (some ch,
     { sessions := fun h =>
         if h = serverName then some { subscribers := ch :: sess.subscribers }
         else s.sessions h,
       nextSinkId := s.nextSinkId + 1 })

/-- The unsubscribe closure returned by `Subscribe`: delete exactly the
captured channel from the captured session's subscriber set. -/
def removeSink (sess : SubSession) (ch : Sink) : SubSession :=
  { subscribers := sess.subscribers.filter (fun c => c ≠ ch) }

/-- One update of the `backoff` variable in `runSession` (lines 161-166):
double, capped at 60 seconds. -/
def backoffStep (b : Nat) : Nat :=
  let b2 := b * 2
  if b2 > 60 then 60 else b2

/-- The waits performed by `runSession` given the outcomes of successive
`connectSOL` attempts (`true` = returned nil): each iteration waits the
current backoff and then steps it, regardless of the outcome.  `waitsFrom`
threads the current backoff value. -/
def waitsFrom (b : Nat) : List Bool → List Nat
  | [] => []
  | _ :: rest => b :: waitsFrom (backoffStep b) rest

/-- Waits of one `runSession` invocation, which initialises
`backoff := time.Second`. -/
def runSessionWaits (outcomes : List Bool) : List Nat :=
  waitsFrom 1 outcomes

/-!  Concrete fixtures used to instantiate the theorems below. -/

/-- Fixture detector: one BIOS matcher, no OS regex matchers. -/
def rdB : RebootDetector := newRebootDetector [fun t => t == "BIOSBANNER"] []

/-- Fixture detector: one BIOS matcher and one OS matcher. -/
def rdBO : RebootDetector :=
  newRebootDetector [fun t => t == "BIOSBANNER"] [fun t => t == "OSLINE"]

/-- Fixture detector whose BIOS and OS matchers both recognise `"XBANNER"`. -/
def rdX : RebootDetector :=
  newRebootDetector [fun t => t == "XBANNER"] [fun t => t == "XBANNER"]

/-- Fixture state map: host `"srv"` believed to be running its OS. -/
def stInOS : StateMap :=
  fun h => if h = "srv" then some { inOS := true, lastReboot := none } else none

/-- Fixture state map: host `"srv"` saw a reboot at time 0. -/
def stCool : StateMap :=
  fun h => if h = "srv" then some { inOS := false, lastReboot := some 0 } else none

/-- Fixture log-file name. -/
def f0name : String := "2024-01-01_00-00-00.log"

/-- Fixture host directory: one log file, `current.log` targeting it. -/
def d0 : HostDir := { files := [(f0name, 0)], currentLink := some (f0name, 0) }

/-- Fixture base directory with one host. -/
def fs0 : Fs := [("srv", d0)]

/-- Fixture writer holding an open handle on `f0name` for `"srv"`. -/
def w0 : Writer :=
  { basePath := "/logs", retentionDays := 7,
    files := fun h => if h = "srv" then some f0name else none }

/-- Fixture writer with no open handles. -/
def wClosed : Writer :=
  { basePath := "/logs", retentionDays := 7, files := fun _ => none }

/-- Fixture wall-clock time. -/
def dt1 : DateTime :=
  { year := 2024, month := 1, day := 2, hour := 3, minute := 4, second := 5 }

/-- Fixture manager registry: host `"srv"` holds session 0; next id 1. -/
def msOne : ManagerState :=
  { sessions := fun h => if h = "srv" then some 0 else none,
    cancelled := fun _ => false,
    nextId := 1 }

/-- Fixture subscriber registry: host `"srv"` active with no subscribers. -/
def ssOne : SubState :=
  { sessions := fun h => if h = "srv" then some { subscribers := [] } else none,
    nextSinkId := 0 }

/-!  Basic lemmas about the classifier. -/

theorem setState_same (states : StateMap) (h : String) (st : ServerState) :
    setState states h st h = some st := by
  simp [setState]

theorem setState_ne (states : StateMap) (h x : String) (st : ServerState)
    (hx : x ≠ h) : setState states h st x = states x := by
  simp [setState, hx]

theorem recordOf_setState_same (states : StateMap) (h : String) (st : ServerState) :
    recordOf (setState states h st) h = st := by
  simp [recordOf, setState_same]

theorem check_of_matchesOS (rd : RebootDetector) (states : StateMap)
    (h t : String) (now : Nat) (hos : rd.matchesOS t = true) :
    rd.check states h t now =
      (false, setState states h { recordOf states h with inOS := true }) := by
  unfold RebootDetector.check
  by_cases hcd : inCooldown rd.cooldown (recordOf states h).lastReboot now = true <;>
    simp [hcd, hos]

theorem check_of_cooldown (rd : RebootDetector) (states : StateMap)
    (h t : String) (now : Nat)
    (hc : inCooldown rd.cooldown (recordOf states h).lastReboot now = true) :
    rd.check states h t now =
      (false, setState states h
        (if rd.matchesOS t then { recordOf states h with inOS := true }
         else recordOf states h)) := by
  unfold RebootDetector.check
  simp [hc]

theorem check_true_iff (rd : RebootDetector) (states : StateMap)
    (h t : String) (now : Nat) :
    (rd.check states h t now).1 = true ↔
      (inCooldown rd.cooldown (recordOf states h).lastReboot now = false ∧
       rd.matchesOS t = false ∧ rd.matchesBIOS t = true ∧
       (recordOf states h).inOS = true) := by
  unfold RebootDetector.check
  cases hcd : inCooldown rd.cooldown (recordOf states h).lastReboot now <;>
    cases hos : rd.matchesOS t <;>
    cases hbi : rd.matchesBIOS t <;>
    cases hin : (recordOf states h).inOS <;>
    simp [hcd, hos, hbi, hin]

theorem check_snd_of_true (rd : RebootDetector) (states : StateMap)
    (h t : String) (now : Nat) (htr : (rd.check states h t now).1 = true) :
    (rd.check states h t now).2 =
      setState states h { inOS := false, lastReboot := some now } := by
  obtain ⟨hcd, hos, hbi, hin⟩ := (check_true_iff rd states h t now).mp htr
  unfold RebootDetector.check
  simp [hcd, hos, hbi, hin]

theorem check_snd_frame (rd : RebootDetector) (states : StateMap)
    (h t : String) (now : Nat) (x : String) (hx : x ≠ h) :
    (rd.check states h t now).2 x = states x := by
  unfold RebootDetector.check
  cases hcd : inCooldown rd.cooldown (recordOf states h).lastReboot now <;>
    cases hos : rd.matchesOS t <;>
    cases hbi : rd.matchesBIOS t <;>
    cases hin : (recordOf states h).inOS <;>
    simp [hcd, hos, hbi, hin, setState, hx]

theorem checkSeq_false_of_os (rd : RebootDetector) (h : String) :
    ∀ (chunks : List (String × Nat)) (states : StateMap),
      (∀ c ∈ chunks, rd.matchesOS c.1 = true) →
      ∀ b ∈ (checkSeq rd states h chunks).1, b = false := by
  intro chunks
  induction chunks with
  | nil =>
    intro states _ b hb
    simp [checkSeq] at hb
  | cons c rest ih =>
    obtain ⟨t, n⟩ := c
    intro states hos b hb
    have h1 : rd.matchesOS t = true := hos (t, n) (List.mem_cons_self _ _)
    simp only [checkSeq] at hb
    rcases List.mem_cons.mp hb with hb1 | hb2
    · rw [hb1, check_of_matchesOS rd states h t n h1]
    · exact ih ((rd.check states h t n).2)
        (fun c hc => hos c (List.mem_cons_of_mem _ hc)) b hb2

/-!  Claim theorems for the boot-state classifier. -/

/-- C2: `Check` returns true only when the host's record had `inOS = true`
and the text matched a boot-indicator rule (an OS-to-firmware transition);
starting from `inOS = false`, a sequence of chunks that match only
OS-indicator rules never yields true, and a boot-indicator chunk seen
while `inOS = false` yields false. -/
theorem C2_reboot_only_on_transition (rd : RebootDetector) :
    (∀ states h t now, (rd.check states h t now).1 = true →
        (recordOf states h).inOS = true ∧ rd.matchesBIOS t = true) ∧
    (∀ chunks states h,
        (recordOf states h).inOS = false →
        (∀ c ∈ chunks, rd.matchesOS c.1 = true ∧ rd.matchesBIOS c.1 = false) →
        ∀ b ∈ (checkSeq rd states h chunks).1, b = false) ∧
    (∀ states h t now,
        (recordOf states h).inOS = false → rd.matchesBIOS t = true →
        (rd.check states h t now).1 = false) := by
  refine ⟨?_, ?_, ?_⟩
  · intro states h t now htr
    have hc := (check_true_iff rd states h t now).mp htr
    exact ⟨hc.2.2.2, hc.2.2.1⟩
  · intro chunks states h _ hos
    exact checkSeq_false_of_os rd h chunks states (fun c hc => (hos c hc).1)
  · intro states h t now hin hbi
    cases hr : (rd.check states h t now).1
    · rfl
    · have hc := (check_true_iff rd states h t now).mp hr
      simp [hc.2.2.2] at hin

/-- C2 witness: a concrete detector and state on which `Check` fires,
confirming the record was in the OS state and the text is a BIOS match. -/
theorem C2_reboot_only_on_transition_witness :
    (recordOf stInOS "srv").inOS = true ∧ rdB.matchesBIOS "BIOSBANNER" = true :=
  (C2_reboot_only_on_transition rdB).1 stInOS "srv" "BIOSBANNER" 1000 (by decide)

/-- C3: within the fixed 2-minute (120-second) cooldown window after
`lastReboot`, `Check` returns false even for boot-indicator text, while an
OS-indicator chunk still sets `inOS := true`; consequently, right after a
detected reboot the next boot-indicator chunk inside the window returns
false. -/
theorem C3_cooldown_suppression (bios os : List (String → Bool)) :
    (∀ states h t (now t0 : Nat),
        (recordOf states h).lastReboot = some t0 →
        now - t0 < 120 →
        ((newRebootDetector bios os).check states h t now).1 = false ∧
        ((newRebootDetector bios os).matchesOS t = true →
          ((newRebootDetector bios os).check states h t now).2 h =
            some { recordOf states h with inOS := true })) ∧
    (∀ states h t (now : Nat) t2 (now2 : Nat),
        ((newRebootDetector bios os).check states h t now).1 = true →
        now2 - now < 120 →
        ((newRebootDetector bios os).check
            ((newRebootDetector bios os).check states h t now).2 h t2 now2).1
          = false) := by
  constructor
  · intro states h t now t0 hlast hlt
    have hc : inCooldown (newRebootDetector bios os).cooldown
        (recordOf states h).lastReboot now = true := by
      simp [inCooldown, hlast, newRebootDetector, hlt]
    rw [check_of_cooldown _ states h t now hc]
    constructor
    · rfl
    · intro hos
      simp [setState_same, hos]
  · intro states h t now t2 now2 htr hlt
    have hsnd := check_snd_of_true _ states h t now htr
    have hc : inCooldown (newRebootDetector bios os).cooldown
        (recordOf ((newRebootDetector bios os).check states h t now).2 h).lastReboot
        now2 = true := by
      rw [hsnd, recordOf_setState_same]
      simp [inCooldown, newRebootDetector, hlt]
    rw [check_of_cooldown _ _ h t2 now2 hc]

/-- C3 witness: concrete runs exercising both parts of the cooldown
property. -/
theorem C3_cooldown_suppression_witness :
    (rdBO.check stCool "srv" "BIOSBANNER" 10).1 = false ∧
    (rdBO.check (rdBO.check stInOS "srv" "BIOSBANNER" 1000).2
        "srv" "BIOSBANNER" 1060).1 = false :=
  ⟨((C3_cooldown_suppression [fun t => t == "BIOSBANNER"] [fun t => t == "OSLINE"]).1
      stCool "srv" "BIOSBANNER" 10 0 (by decide) (by decide)).1,
   (C3_cooldown_suppression [fun t => t == "BIOSBANNER"] [fun t => t == "OSLINE"]).2
      stInOS "srv" "BIOSBANNER" 1000 "BIOSBANNER" 1060 (by decide) (by decide)⟩

/-- C6: a chunk that matches both an OS-indicator and a boot-indicator
rule is treated as OS evidence: `inOS` is set and no reboot is signaled. -/
theorem C6_os_priority (rd : RebootDetector) (states : StateMap)
    (h t : String) (now : Nat)
    (hos : rd.matchesOS t = true) (_hbi : rd.matchesBIOS t = true) :
    (rd.check states h t now).1 = false ∧
    (rd.check states h t now).2 h = some { recordOf states h with inOS := true } := by
  rw [check_of_matchesOS rd states h t now hos]
  exact ⟨rfl, setState_same states h _⟩

/-- C6 witness: a detector whose BIOS and OS matchers both recognise the
same banner. -/
theorem C6_os_priority_witness :
    (rdX.check stInOS "srv" "XBANNER" 1000).1 = false ∧
    (rdX.check stInOS "srv" "XBANNER" 1000).2 "srv" =
      some { recordOf stInOS "srv" with inOS := true } :=
  C6_os_priority rdX stInOS "srv" "XBANNER" 1000 (by decide) (by decide)

/-- C10: `Check` and `MarkOSRunning` on host `h` leave every other host's
record unchanged, and `MarkOSRunning` sets only `inOS`, preserving the
host's `lastReboot` timestamp. -/
theorem C10_per_host_frame (rd : RebootDetector) (states : StateMap)
    (h h2 t : String) (now : Nat) (hne : h2 ≠ h) :
    (rd.check states h t now).2 h2 = states h2 ∧
    markOSRunning states h h2 = states h2 ∧
    markOSRunning states h h =
      some { inOS := true, lastReboot := (recordOf states h).lastReboot } := by
  refine ⟨check_snd_frame rd states h t now h2 hne, ?_, ?_⟩
  · simp [markOSRunning, setState, hne]
  · simp [markOSRunning, setState]

/-- C10 witness: concrete framing of host `"other"` against operations on
host `"srv"`. -/
theorem C10_per_host_frame_witness :
    (rdB.check stInOS "srv" "hello" 0).2 "other" = stInOS "other" ∧
    markOSRunning stInOS "srv" "other" = stInOS "other" ∧
    markOSRunning stInOS "srv" "srv" =
      some { inOS := true, lastReboot := (recordOf stInOS "srv").lastReboot } :=
  C10_per_host_frame rdB stInOS "srv" "other" "hello" 0 (by decide)

/-!  Basic lemmas about the log store. -/

theorem lookupDir_setDir (fs : Fs) (h : String) (d d2 : HostDir)
    (hd : lookupDir fs h = some d) :
    lookupDir (setDir fs h d2) h = some d2 := by
  induction fs with
  | nil => simp [lookupDir] at hd
  | cons p rest ih =>
    by_cases hp : p.1 = h
    · have hb : (p.1 == h) = true := beq_iff_eq.mpr hp
      simp [lookupDir, setDir, List.find?_cons, hb, hp]
    · have hb : (p.1 == h) = false := by
        simp [hp]
      simp only [lookupDir, List.find?_cons, hb] at hd
      have hstep : setDir (p :: rest) h d2 = p :: setDir rest h d2 := by
        simp [setDir, if_neg hp]
      rw [hstep]
      simp only [lookupDir, List.find?_cons, hb]
      exact ih hd

theorem lookupDir_cleanup_map (fs : Fs) (h : String) (cutoff : Int) :
    lookupDir (List.map (fun p => (p.1, cleanupHostDir cutoff p.2)) fs) h =
      (lookupDir fs h).map (cleanupHostDir cutoff) := by
  induction fs with
  | nil => simp [lookupDir]
  | cons p rest ih =>
    by_cases hp : (p.1 == h) = true
    · simp [lookupDir, List.find?_cons, hp]
    · have hb : (p.1 == h) = false := by
        cases hx : (p.1 == h)
        · rfl
        · exact absurd hx hp
      simp only [lookupDir, List.map_cons, List.find?_cons, hb] at ih ⊢
      exact ih

theorem mem_cleanupHostDir_files (cutoff : Int) (d : HostDir) (e : String × Int) :
    e ∈ (cleanupHostDir cutoff d).files ↔
      (e ∈ d.files ∧ ¬(fileExt e.1 = ".log" ∧ e.2 < cutoff)) := by
  have hpred : ∀ x : String × Int,
      ((!(fileExt x.1 == ".log" && decide (x.2 < cutoff))) = true) ↔
        ¬(fileExt x.1 = ".log" ∧ x.2 < cutoff) := by
    intro x
    cases hb : (fileExt x.1 == ".log" && decide (x.2 < cutoff)) <;>
      simp_all
  simp only [cleanupHostDir, List.mem_filter, hpred]

/-!  Claim theorems for the log store. -/

/-- C1 (code-bug demonstration): `Rotate` closes the handle but leaves
the `current.log` pointer targeting the old file, so the next `Write`
reopens and appends to that same file — no new file is created and the
pointer still targets the old file, contrary to the claim (and to the
comment inside `Rotate` announcing a new file on the next write).  Host
`"srv"` has file `f0name` open with `current.log` targeting it; after
`Rotate` then `Write`, the handle is back on `f0name`, the directory
still holds exactly `f0name` (freshly touched), and `current.log` still
targets it. -/
theorem C1_rotate_then_write_resumes_old_file :
    (Writer.write (Writer.rotate w0 "srv") fs0 "srv" "boot output" dt1 1).1.files "srv"
        = some f0name ∧
    (Writer.write (Writer.rotate w0 "srv") fs0 "srv" "boot output" dt1 1).2
        = [("srv", { files := [(f0name, 1)], currentLink := some (f0name, 0) })] := by
  decide

/-- C4: when a host has no open handle, `getOrCreateFile` resumes the
file the `current.log` pointer targets whenever that file exists (same
file reopened, nothing on disk changes); only when the pointer is absent
or dangling does it create a file named by the wall-clock timestamp and
repoint `current.log` at it. -/
theorem C4_resume_on_restart (w : Writer) (fs : Fs) (h : String)
    (now : DateTime) (nowT : Int) (d : HostDir)
    (hopen : w.files h = none) (hd : lookupDir fs h = some d) :
    (∀ tg m, d.currentLink = some (tg, m) → tg ∈ fileNames d →
        getOrCreateFile w fs h now nowT = (tg, setHandle w h tg, fs)) ∧
    ((∀ tg m, d.currentLink = some (tg, m) → tg ∉ fileNames d) →
      formatTimestamp now ++ ".log" ∉ fileNames d →
      (getOrCreateFile w fs h now nowT).1 = formatTimestamp now ++ ".log" ∧
      (getOrCreateFile w fs h now nowT).2.1.files h =
        some (formatTimestamp now ++ ".log") ∧
      lookupDir (getOrCreateFile w fs h now nowT).2.2 h =
        some { files := (formatTimestamp now ++ ".log", nowT) :: d.files,
               currentLink := some (formatTimestamp now ++ ".log", nowT) }) := by
  have hens : ensureDir fs h = fs := by simp [ensureDir, hd]
  constructor
  · intro tg m hlink hmem
    unfold getOrCreateFile
    rw [hopen]
    simp only [hens, hd, Option.getD_some, hlink]
    rw [if_pos hmem]
  · intro hnores hfresh
    have hred : getOrCreateFile w fs h now nowT = createNewFile w fs h d now nowT := by
      unfold getOrCreateFile
      rw [hopen]
      simp only [hens, hd, Option.getD_some]
      cases hlink : d.currentLink with
      | none => rfl
      | some pr =>
        obtain ⟨tg, m⟩ := pr
        simp only [if_neg (hnores tg m hlink)]
    rw [hred]
    refine ⟨rfl, by simp [createNewFile, setHandle], ?_⟩
    have hdd : (createNewFile w fs h d now nowT).2.2 =
        setDir fs h
          { files := (formatTimestamp now ++ ".log", nowT) :: d.files,
            currentLink := some (formatTimestamp now ++ ".log", nowT) } := by
      simp only [createNewFile]
      rw [if_neg hfresh]
    rw [hdd]
    exact lookupDir_setDir fs h d _ hd

/-- C4 witness: with no open handle and `current.log` targeting the
existing file `f0name`, the store resumes exactly that file and the base
directory is unchanged. -/
theorem C4_resume_on_restart_witness :
    getOrCreateFile wClosed fs0 "srv" dt1 5 = (f0name, setHandle wClosed "srv" f0name, fs0) :=
  (C4_resume_on_restart wClosed fs0 "srv" dt1 5 d0 rfl rfl).1 f0name 0 rfl (by decide)

/-- C5 counterexample: with a 7-day retention window, host `"srv"`'s
still-open current log file is itself stale (modification time 0, cutoff
93), and `Cleanup` deletes it — and the `current.log` pointer too —
contradicting the claim that the open/current file is left untouched. -/
theorem C5_cleanup_deletes_stale_current :
    w0.files "srv" = some f0name ∧
    d0.currentLink = some (f0name, 0) ∧
    Writer.cleanup w0 100 fs0 = [("srv", { files := [], currentLink := none })] := by
  decide

/-- C5 (amended): with retention `N ≤ 0`, `Cleanup` is a no-op; with
`N > 0` it deletes, in each host directory, exactly the `.log`-named
entries whose modification time is older than the cutoff — including the
open/current file when it is itself that stale — and keeps every entry
that is newer or not `.log`-named, the `current.log` pointer included. -/
theorem C5_cleanup_retention (w : Writer) (now : Int) (fs : Fs) :
    (w.retentionDays ≤ 0 → w.cleanup now fs = fs) ∧
    (0 < w.retentionDays →
      ∀ h d, lookupDir fs h = some d →
        lookupDir (w.cleanup now fs) h =
          some (cleanupHostDir (now - w.retentionDays) d) ∧
        (∀ e, e ∈ (cleanupHostDir (now - w.retentionDays) d).files ↔
            (e ∈ d.files ∧ ¬(fileExt e.1 = ".log" ∧ e.2 < now - w.retentionDays))) ∧
        (∀ tg m, d.currentLink = some (tg, m) → ¬(m < now - w.retentionDays) →
            (cleanupHostDir (now - w.retentionDays) d).currentLink = some (tg, m))) := by
  constructor
  · intro hle
    simp [Writer.cleanup, hle]
  · intro hpos h d hd
    have hnle : ¬(w.retentionDays ≤ 0) := by omega
    refine ⟨?_, fun e => mem_cleanupHostDir_files _ d e, ?_⟩
    · simp [Writer.cleanup, hnle, lookupDir_cleanup_map, hd]
    · intro tg m hlink hm
      simp [cleanupHostDir, hlink, hm]

/-- C5 witness: retention disabled is a no-op, and with the 7-day window
the stale directory of `fs0` is cleaned according to `cleanupHostDir`. -/
theorem C5_cleanup_retention_witness :
    Writer.cleanup (newWriter "/logs" 0) 100 fs0 = fs0 ∧
    lookupDir (Writer.cleanup w0 100 fs0) "srv" =
      some (cleanupHostDir ((100 : Int) - w0.retentionDays) d0) :=
  ⟨(C5_cleanup_retention (newWriter "/logs" 0) 100 fs0).1 (by decide),
   (((C5_cleanup_retention w0 100 fs0).2 (by decide)) "srv" d0 rfl).1⟩

/-!  Lemmas and claim theorems for the session supervisor. -/

theorem backoffStep_eq_min (b : Nat) : backoffStep b = min (b * 2) 60 := by
  simp only [backoffStep]
  split_ifs with hgt <;> omega

theorem backoffStep_min (n : Nat) :
    backoffStep (min (2 ^ n) 60) = min (2 ^ (n + 1)) 60 := by
  have h2 : 2 ^ (n + 1) = 2 ^ n * 2 := by ring
  rw [backoffStep_eq_min, h2]
  omega

theorem backoffStep_iterate (n : Nat) :
    backoffStep^[n] 1 = min (2 ^ n) 60 := by
  induction n with
  | zero => simp [backoffStep]
  | succ k ih =>
    rw [Function.iterate_succ_apply', ih, backoffStep_min]

theorem waitsFrom_getD (l : List Bool) (b : Nat) (j : Nat) (hj : j < l.length) :
    (waitsFrom b l).getD j 0 = backoffStep^[j] b := by
  induction l generalizing b j with
  | nil => simp at hj
  | cons x rest ih =>
    cases j with
    | zero => simp [waitsFrom]
    | succ k =>
      have hk : k < rest.length := by
        simpa using hj
      simp only [waitsFrom, List.getD_cons_succ]
      rw [ih (backoffStep b) k hk, Function.iterate_succ_apply]

/-- C7: within one supervisory loop, the wait before retry attempt `k`
(for any sequence of attempt outcomes, success or failure — the backoff
is never reset) is `min(2^(k-1), 60)` seconds: it starts at 1 second,
doubles after every attempt, and is capped at 60 seconds. -/
theorem C7_backoff_schedule (outcomes : List Bool) (k : Nat)
    (h1 : 1 ≤ k) (h2 : k ≤ outcomes.length) :
    (runSessionWaits outcomes).getD (k - 1) 0 = min (2 ^ (k - 1)) 60 := by
  have hk : k - 1 < outcomes.length := by omega
  rw [runSessionWaits, waitsFrom_getD outcomes 1 (k - 1) hk, backoffStep_iterate]

/-- C7 witness: with a transiently successful first attempt and two
failures, the wait before retry attempt 3 is still `min(2^2, 60) = 4`
seconds. -/
theorem C7_backoff_schedule_witness :
    (runSessionWaits [true, false, false]).getD 2 0 = min (2 ^ 2) 60 :=
  C7_backoff_schedule [true, false, false] 3 (by decide) (by decide)

/-- C8: starting a session for a host that already has one triggers the
old session's cancellation in the pre-install step (which leaves the
registry untouched), and afterwards the registry maps the host to exactly
the freshly created session, whose id differs from the old one. -/
theorem C8_single_session_per_host (s : ManagerState) (h : String) (oldId : Nat)
    (hfresh : idsFresh s) (hold : s.sessions h = some oldId) :
    (cancelOldSession s h).cancelled oldId = true ∧
    (cancelOldSession s h).sessions h = s.sessions h ∧
    (startSession s h).sessions h = some s.nextId ∧
    (startSession s h).cancelled oldId = true ∧
    s.nextId ≠ oldId := by
  have hlt : oldId < s.nextId := hfresh h oldId hold
  refine ⟨?_, ?_, ?_, ?_, by omega⟩
  · simp [cancelOldSession, hold]
  · simp [cancelOldSession, hold]
  · simp [startSession, installNewSession, cancelOldSession, hold]
  · simp [startSession, installNewSession, cancelOldSession, hold]

/-- C8 witness: restarting host `"srv"` (holding session 0) cancels
session 0 before installing session 1, and the registry then maps
`"srv"` to session 1. -/
theorem C8_single_session_per_host_witness :
    (cancelOldSession msOne "srv").cancelled 0 = true ∧
    (cancelOldSession msOne "srv").sessions "srv" = msOne.sessions "srv" ∧
    (startSession msOne "srv").sessions "srv" = some 1 ∧
    (startSession msOne "srv").cancelled 0 = true ∧
    (1 : Nat) ≠ 0 :=
  C8_single_session_per_host msOne "srv" 0
    (fun h2 i hi => by
      by_cases hh : h2 = "srv"
      · simp [msOne, hh] at hi
        simp [msOne]
        omega
      · simp [msOne, hh] at hi)
    rfl

/-- C9: `Subscribe` on a host with no session returns an explicit absence
and changes nothing; on a host with a session it returns a fresh sink of
capacity 100 registered in that session's subscriber set, and the
unsubscribe action removes exactly that sink. -/
theorem C9_subscribe_explicit_absence (s : SubState) (h : String) :
    (s.sessions h = none → subscribe s h = (none, s)) ∧
    (∀ sess, s.sessions h = some sess →
      ∃ ch, (subscribe s h).1 = some ch ∧ ch.capacity = 100 ∧
        (subscribe s h).2.sessions h = some { subscribers := ch :: sess.subscribers } ∧
        (ch ∉ sess.subscribers →
          removeSink { subscribers := ch :: sess.subscribers } ch = sess)) := by
  constructor
  · intro hnone
    simp [subscribe, hnone]
  · intro sess hsome
    refine ⟨{ id := s.nextSinkId, capacity := 100 }, ?_, rfl, ?_, ?_⟩
    · simp [subscribe, hsome]
    · simp [subscribe, hsome]
    · intro hnotin
      have hfilter : sess.subscribers.filter
          (fun c => c ≠ ({ id := s.nextSinkId, capacity := 100 } : Sink)) =
          sess.subscribers := by
        rw [List.filter_eq_self]
        intro a ha
        simp only [ne_eq, decide_eq_true_eq]
        intro heq
        exact hnotin (heq ▸ ha)
      simp only [ne_eq, decide_not] at hfilter
      simp [removeSink, List.filter_cons, hfilter]

/-- C9 witness: subscribing on the absent host `"nope"` returns the
explicit absence, and subscribing on active host `"srv"` registers a
capacity-100 sink. -/
theorem C9_subscribe_explicit_absence_witness :
    subscribe ssOne "nope" = (none, ssOne) ∧
    ∃ ch, (subscribe ssOne "srv").1 = some ch ∧ ch.capacity = 100 ∧
      (subscribe ssOne "srv").2.sessions "srv" =
        some { subscribers := ch :: ([] : List Sink) } ∧
      (ch ∉ ([] : List Sink) →
        removeSink { subscribers := ch :: ([] : List Sink) } ch =
          { subscribers := [] }) :=
  ⟨(C9_subscribe_explicit_absence ssOne "nope").1 rfl,
   (C9_subscribe_explicit_absence ssOne "srv").2 { subscribers := [] } rfl⟩

end ConsoleServer
